import Mathlib

/-!
Verification development for the persona-auto-gen pipeline
(`src/persona_auto_gen`): a shallow embedding of the configuration,
validation, workflow decision, reflection/validation nodes and the
contacts/alarms generators, with theorems settling the spec claims.

Modelling conventions:
* Python `dict`s become association lists `List (String × _)`; `dict.get`
  with a default becomes `dictGetD`.
* The pseudo-random module (`random.*`) and the faker library are external;
  each call consumes one element of an explicit stream `List Nat` of draws.
* `datetime.now()` reads consume an explicit wall-clock stream `List Nat`
  of epoch seconds, separate from the random stream: re-seeding the PRNG
  does not fix the clock.
* Error message text is modelled as `List Nat` of ASCII character codes so
  that Python's `str.lower` is a plain arithmetic map.
-/

namespace PersonaAutoGen

/-- ASCII character codes of a string literal, used to state facts about
Python string operations on error messages. -/
def strCodes (s : String) : List Nat :=
  s.toList.map Char.toNat

/-- Models Python `str.lower` on one ASCII character code. -/
def pyLowerCode (c : Nat) : Nat :=
  if 65 ≤ c ∧ c ≤ 90 then c + 32 else c

/-- Models Python `str.startswith` on code lists (helper for substring). -/
def startsWithCodes : List Nat → List Nat → Bool
  | _, [] => true
  | [], _ :: _ => false
  | c :: cs, n :: ns => c == n && startsWithCodes cs ns

/-- Models Python's substring test `needle in hay` on code lists. -/
def containsCodes : List Nat → List Nat → Bool
  | [], needle => needle.isEmpty
  | c :: cs, needle => startsWithCodes (c :: cs) needle || containsCodes cs needle

/-- Models `d.get(k, dflt)` on a Python dict with Nat values. -/
def dictGetD (d : List (String × Nat)) (k : String) (dflt : Nat) : Nat :=
  ((d.find? (fun p => p.1 == k)).map (fun p => p.2)).getD dflt

/-- Embedding of `Config` (config.py), restricted to the fields the
verified components read.  `start_date`/`end_date` are epoch seconds.
`max_regeneration_attempts` is declared in the source configuration but,
as proved below, never read by the workflow. -/
structure Config where
  use_faker_fallback : Bool
  max_validation_errors : Nat
  data_volume : List (String × Nat)
  enabled_apps : List String
  start_date : Nat
  end_date : Nat
  max_regeneration_attempts : Nat

/-- Embedding of the per-app validation result dict built by
`SchemaValidator.validate_app_data` (utils/validation.py). -/
structure VResult where
  is_valid : Bool
  app_name : String
  entry_count : Nat
  errors : List (List Nat)
  warnings : List (List Nat)
  total_errors : Nat
  critical_errors : Nat

/-- Embedding of `SchemaValidator._is_critical_error`
(utils/validation.py lines 146-156): the message is lowercased and then
tested for the four critical patterns with Python's case-sensitive `in`. -/
def is_critical_error (msg : List Nat) : Bool :=
  [strCodes "required", strCodes "type", strCodes "format",
    strCodes "additionalProperties"].any
    (fun pat => containsCodes (msg.map pyLowerCode) pat)

/-- The claim's criticality predicate, written from the spec's words
(§4.3): the error text contains one of the four patterns as a
case-insensitive substring (both sides lowercased). -/
def specCriticalContains (msg : List Nat) : Bool :=
  [strCodes "required", strCodes "type", strCodes "format",
    strCodes "additionalProperties"].any
    (fun pat => containsCodes (msg.map pyLowerCode) (pat.map pyLowerCode))

/-- Outcome of the underlying `jsonschema.validate` call together with the
schema load, as observed by `validate_app_data`: success (with the entry
count read from the data), a `ValidationError` carrying its message, or
any other exception carrying its message. -/
inductive ValidateOutcome where
  | ok (entry_count : Nat)
  | schemaViolation (msg : List Nat)
  | otherError (msg : List Nat)

/-- Embedding of `SchemaValidator.validate_app_data`
(utils/validation.py lines 43-99) as a function of the validation
outcome. -/
def validate_app_data (app : String) (outcome : ValidateOutcome) : VResult :=
  match outcome with
  | .ok n =>
      { is_valid := true, app_name := app, entry_count := n,
        errors := [], warnings := [], total_errors := 0, critical_errors := 0 }
  | .schemaViolation m =>
      { is_valid := false, app_name := app, entry_count := 0,
        errors := [strCodes "Validation error in " ++ strCodes app ++ strCodes ": " ++ m],
        warnings := [], total_errors := 1,
        critical_errors := if is_critical_error m then 1 else 0 }
  | .otherError m =>
      { is_valid := false, app_name := app, entry_count := 0,
        errors := [strCodes "Unexpected validation error in " ++ strCodes app ++ strCodes ": " ++ m],
        warnings := [], total_errors := 1, critical_errors := 1 }

/-- Embedding of `PersonaWorkflow._should_regenerate`
(agents/workflow.py lines 81-101). -/
def shouldRegenerate (validation_results : List (String × VResult))
    (max_validation_errors : Nat) : String :=
  if validation_results.any (fun p => 0 < p.2.critical_errors) then "regenerate"
  else if max_validation_errors <
      (validation_results.map (fun p => p.2.total_errors)).sum then "regenerate"
  else "continue"

/-- Effective per-app record count requested by `DataGenerationNode.run`
(agents/nodes.py line 173): `config.data_volume.get(app_name, 10)`. -/
def generationDataVolume (data_volume : List (String × Nat)) (app : String) : Nat :=
  dictGetD data_volume app 10

/-- Embedding of `Config.get_app_data_count` (config.py lines 195-197):
`self.data_volume.get(app_name, 0)`. -/
def get_app_data_count (data_volume : List (String × Nat)) (app : String) : Nat :=
  dictGetD data_volume app 0

/-- Nodes of the LangGraph workflow built by
`PersonaWorkflow._create_workflow` (agents/workflow.py lines 43-79). -/
inductive WNode where
  | analyze_profile
  | generate_data
  | validate_data
  | reflect_quality
  | package_output
  | done
deriving DecidableEq

/-- One transition of the workflow graph: the fixed edges plus the
conditional edge out of `validate_data`, decided by
`_should_regenerate` on the results of the current validation pass
(`vres k` is the result map of the k-th pass, with `k` counting
validation passes). -/
def workflowNext (vres : Nat → List (String × VResult)) (m : Nat) :
    WNode × Nat → WNode × Nat
  | (.analyze_profile, k) => (.generate_data, k)
  | (.generate_data, k) => (.validate_data, k)
  | (.validate_data, k) =>
      (if shouldRegenerate (vres k) m = "regenerate" then .generate_data
       else .reflect_quality, k + 1)
  | (.reflect_quality, k) => (.package_output, k)
  | (.package_output, k) => (.done, k)
  | (.done, k) => (.done, k)

/-- Iterated workflow transitions. -/
def workflowRun (vres : Nat → List (String × VResult)) (m : Nat) :
    Nat → WNode × Nat → WNode × Nat
  | 0, s => s
  | n + 1, s => workflowRun vres m n (workflowNext vres m s)

/-- JSON values flowing through the generators and nodes (numeric
literals are modelled as naturals; the claims touch none of their
arithmetic). -/
inductive JVal where
  | jnull
  | jbool (b : Bool)
  | jnat (n : Nat)
  | jstr (s : String)
  | jlist (xs : List JVal)
  | jdict (kvs : List (String × JVal))

/-- Models `generated_data[app_name]`: `none` is the empty dict `{}`
stored by the generation node on skip or caught failure, `some (key,
records)` is the single-key dict a generator returns.  A dict with its
data key present is truthy in Python even when the record list is
empty. -/
abbrev AppEntry := Option (String × List JVal)

/-- Embedding of the result dict built by `ReflectionNode` — the keys of
the "skipped" result and of `_parse_reflection`'s fallback results. -/
structure ReflectionResult where
  overall_quality : String
  realism_score : Nat
  diversity_score : Nat
  coherence_score : Nat
  strengths : List String
  weaknesses : List String
  recommendations : List String
  critical_issues : List String
deriving DecidableEq

/-- The fixed result stored when reflection is skipped
(agents/nodes.py lines 279-288). -/
def skippedReflection : ReflectionResult :=
  { overall_quality := "skipped", realism_score := 0, diversity_score := 0,
    coherence_score := 0, strengths := [], weaknesses := [],
    recommendations := [], critical_issues := [] }

/-- Embedding of `ReflectionNode.run` (agents/nodes.py lines 257-315):
filter the generated-data map to apps with positive data volume and a
truthy entry; if nothing remains, store the skipped result without
calling the model, else call the model (whose parsed reflection is the
`llmReflection` parameter).  The returned Bool records whether the model
was invoked. -/
def reflectionRun (dv : List (String × Nat)) (gen : List (String × AppEntry))
    (llmReflection : ReflectionResult) : ReflectionResult × Bool :=
  let filtered := gen.filter (fun p => decide (0 < dictGetD dv p.1 10) && p.2.isSome)
  if filtered.isEmpty then (skippedReflection, false) else (llmReflection, true)

/-- Concrete parsed model reflection used in counterexamples. -/
def sampleReflection : ReflectionResult :=
  { overall_quality := "good", realism_score := 8, diversity_score := 7,
    coherence_score := 9, strengths := [], weaknesses := [],
    recommendations := [], critical_issues := [] }

/-- Embedding of `ValidationNode.run` (agents/nodes.py lines 215-251):
walk `generated_data`, skip apps whose data volume (default 10) is 0 and
apps whose entry is falsy (the empty dict), and record
`validate_app_data`'s result for the rest.  The per-app validation is a
parameter since it wraps the external jsonschema call. -/
def validationRun (dv : List (String × Nat))
    (validator : String → String × List JVal → VResult)
    (gen : List (String × AppEntry)) : List (String × VResult) :=
  gen.filterMap (fun p =>
    if dictGetD dv p.1 10 = 0 then none
    else
      match p.2 with
      | none => none
      | some d => some (p.1, validator p.1 d))

/-- One draw from the seeded pseudo-random stream. -/
def draw (rng : List Nat) : Nat × List Nat :=
  (rng.headD 0, rng.tail)

/-- Models a `random.random()` comparison against a percentage threshold:
the draw reduced modulo 100. -/
def randPct (rng : List Nat) : Nat × List Nat :=
  (rng.headD 0 % 100, rng.tail)

/-- Models `random.randint(a, b)` (both bounds inclusive, `a ≤ b` at
every call site). -/
def randint (a b : Nat) (rng : List Nat) : Nat × List Nat :=
  (a + rng.headD 0 % (b + 1 - a), rng.tail)

/-- Models `random.choice(xs)` on the non-empty lists the source draws
from.  -/
def pyChoice {α : Type} (xs : List α) (dflt : α) (rng : List Nat) : α × List Nat :=
  (xs.getD (rng.headD 0 % xs.length) dflt, rng.tail)

/-- Models one call into the external faker library: an opaque string
fully determined by the consumed draw. -/
def fakerStr (kind : String) (rng : List Nat) : String × List Nat :=
  (kind ++ "_" ++ toString (rng.headD 0), rng.tail)

/-- Models `datetime.fromtimestamp(ts).isoformat()`: an injective
rendering of the epoch timestamp. -/
def isoOf (ts : Nat) : String :=
  "iso_" ++ toString ts

/-- Embedding of `BaseGenerator._generate_realistic_timestamp` with no
base date (base.py lines 110-129): a uniform timestamp in the configured
window, rendered as an iso string. -/
def generateRealisticTimestamp (cfg : Config) (rng : List Nat) : String × List Nat :=
  (isoOf (cfg.start_date + rng.headD 0 % (cfg.end_date + 1 - cfg.start_date)), rng.tail)

/-- Embedding of `BaseGenerator._generate_id` (base.py lines 131-135)
with the `datetime.now().timestamp()` reading `ts` already taken from
the wall-clock stream: `appName_ts_rand` with `rand ∈ [1000, 9999]`. -/
def generateIdAt (appName : String) (ts : Nat) (rng : List Nat) : String × List Nat :=
  let r := randint 1000 9999 rng
  (appName ++ "_" ++ toString ts ++ "_" ++ toString r.1, r.2)

/-- Models `d.get(k)` / `k in d` on a JSON object. -/
def jlookup (kvs : List (String × JVal)) (k : String) : Option JVal :=
  (kvs.find? (fun p => p.1 == k)).map (fun p => p.2)

/-- Models the assignment `d[k] = v` on an existing key (position
preserved). -/
def jset (kvs : List (String × JVal)) (k : String) (v : JVal) : List (String × JVal) :=
  kvs.map (fun p => if p.1 == k then (p.1, v) else p)

/-- Python truthiness of a JSON value. -/
def jFalsy : JVal → Bool
  | .jnull => true
  | .jbool b => !b
  | .jnat n => n == 0
  | .jstr s => s == ""
  | .jlist xs => xs.isEmpty
  | .jdict kvs => kvs.isEmpty

/-- One field of `BaseGenerator._ensure_timestamps` (base.py lines
169-175): a present-but-falsy timestamp field is backfilled with a
realistic timestamp. -/
def backfillTimestampField (cfg : Config) (k : String)
    (entry : List (String × JVal)) (rng : List Nat) :
    List (String × JVal) × List Nat :=
  match jlookup entry k with
  | some v =>
      if jFalsy v then
        let t := generateRealisticTimestamp cfg rng
        (jset entry k (.jstr t.1), t.2)
      else (entry, rng)
  | none => (entry, rng)

/-- Embedding of `BaseGenerator._ensure_timestamps` (base.py lines
169-175) over its fixed field list. -/
def ensureTimestamps (cfg : Config) (entry : List (String × JVal)) (rng : List Nat) :
    List (String × JVal) × List Nat :=
  let e1 := backfillTimestampField cfg "created_date" entry rng
  let e2 := backfillTimestampField cfg "timestamp" e1.1 e1.2
  backfillTimestampField cfg "start_datetime" e2.1 e2.2

/-- Embedding of `BaseGenerator._clean_entry` (base.py lines 158-167):
assign a generated id when the key is absent (one wall-clock reading and
one draw), then backfill timestamps.  Returns the entry and the remaining
clock and random streams. -/
def cleanEntry (cfg : Config) (appName : String) (entry : List (String × JVal))
    (clock rng : List Nat) : List (String × JVal) × List Nat × List Nat :=
  let withId : List (String × JVal) × List Nat × List Nat :=
    match jlookup entry "id" with
    | some _ => (entry, clock, rng)
    | none =>
        let gid := generateIdAt appName (clock.headD 0) rng
        (entry ++ [("id", JVal.jstr gid.1)], clock.tail, gid.2)
  let e2 := ensureTimestamps cfg withId.1 withId.2.2
  (e2.1, withId.2.1, e2.2)

/-- The entry loop of `BaseGenerator._clean_and_validate_data` (base.py
lines 148-154): non-dict entries are dropped, dict entries are cleaned
and kept when truthy. -/
def cleanEntries (cfg : Config) (appName : String) :
    List JVal → List Nat → List Nat → List JVal × List Nat × List Nat
  | [], clock, rng => ([], clock, rng)
  | e :: rest, clock, rng =>
      match e with
      | .jdict kvs =>
          let ce := cleanEntry cfg appName kvs clock rng
          let crest := cleanEntries cfg appName rest ce.2.1 ce.2.2
          (if ce.1.isEmpty then crest.1 else .jdict ce.1 :: crest.1, crest.2)
      | _ => cleanEntries cfg appName rest clock rng

/-- Embedding of `BaseGenerator._clean_and_validate_data` (base.py lines
137-156). -/
def cleanAndValidateData (cfg : Config) (appName : String)
    (data : List (String × JVal)) (clock rng : List Nat) :
    List (String × JVal) × List Nat × List Nat :=
  match jlookup data appName with
  | none => ([(appName, JVal.jlist [])], clock, rng)
  | some v =>
      match v with
      | .jlist entries =>
          let c := cleanEntries cfg appName entries clock rng
          ([(appName, JVal.jlist c.1)], c.2)
      | _ => ([(appName, JVal.jlist [])], clock, rng)

/-- Outcome of `BaseGenerator._generate_with_llm` (base.py lines 70-86)
as seen by a generator: `.failed` when the model client raised through
all retries (the exception is re-raised), `.responded p` when text came
back, carrying the brace-extraction parse outcome that
`_parse_json_response` will consume (`none` for no/invalid JSON). -/
inductive LLMOutcome where
  | failed (msg : String)
  | responded (parsed : Option (List (String × JVal)))

/-- Embedding of `BaseGenerator._parse_json_response` together with
`_get_fallback_data` (base.py lines 88-108): the parsed top-level
object, or the single-key fallback dict. -/
def parseJsonResponse (appName : String) (r : Option (List (String × JVal))) :
    List (String × JVal) :=
  match r with
  | some kvs => kvs
  | none => [(appName, JVal.jlist [])]

/-- Models `d.get(key, [])` on the cleaned single-key dict. -/
def jlookupList (kvs : List (String × JVal)) (k : String) : List JVal :=
  match jlookup kvs k with
  | some (.jlist xs) => xs
  | _ => []

/-- One fallback contact record (`ContactsGenerator._generate_fallback_contacts`
loop body, contacts.py lines 119-174), with the `datetime.now()` reading
`ts` for `_generate_id` already taken.  Draw order follows the source's
evaluation order; conditional faker calls consume draws only on their
branch, as in the source. -/
def mkFallbackContact (cfg : Config) (ts : Nat) (rng0 : List Nat) : JVal × List Nat :=
  let dRel := randPct rng0
  let relationship : String :=
    if dRel.1 < 40 then "friend"
    else if dRel.1 < 70 then "colleague"
    else if dRel.1 < 85 then "family"
    else if dRel.1 < 95 then "acquaintance"
    else "business"
  let gid := generateIdAt "contacts" ts dRel.2
  let firstName := fakerStr "first_name" gid.2
  let lastName := fakerStr "last_name" firstName.2
  let phone := fakerStr "phone_number" lastName.2
  let email := fakerStr "email" phone.2
  let org : String × List Nat :=
    if relationship == "colleague" || relationship == "business" then
      fakerStr "company" email.2
    else ("", email.2)
  let job : String × List Nat :=
    if relationship == "colleague" || relationship == "business" then
      fakerStr "job" org.2
    else ("", org.2)
  let birthday := fakerStr "date_of_birth" job.2
  let createdDate := generateRealisticTimestamp cfg birthday.2
  let addresses : JVal × List Nat :=
    if relationship == "family" || relationship == "friend" then
      let coin := randPct createdDate.2
      if coin.1 < 30 then
        let street := fakerStr "street_address" coin.2
        let city := fakerStr "city" street.2
        let st := fakerStr "state" city.2
        let postal := fakerStr "postcode" st.2
        (.jlist [.jdict [("label", .jstr "home"), ("street", .jstr street.1),
          ("city", .jstr city.1), ("state", .jstr st.1),
          ("postal_code", .jstr postal.1), ("country", .jstr "United States")]],
         postal.2)
      else (.jlist [], coin.2)
    else (.jlist [], createdDate.2)
  let phoneNumbers : JVal × List Nat :=
    if relationship == "colleague" then
      let coin := randPct addresses.2
      if coin.1 < 50 then
        let workPhone := fakerStr "phone_number" coin.2
        (.jlist [.jdict [("label", .jstr "mobile"), ("number", .jstr phone.1)],
          .jdict [("label", .jstr "work"), ("number", .jstr workPhone.1)]],
         workPhone.2)
      else (.jlist [.jdict [("label", .jstr "mobile"), ("number", .jstr phone.1)]],
        coin.2)
    else (.jlist [.jdict [("label", .jstr "mobile"), ("number", .jstr phone.1)]],
      addresses.2)
  (.jdict [
    ("id", .jstr gid.1),
    ("first_name", .jstr firstName.1),
    ("last_name", .jstr lastName.1),
    ("display_name", .jstr (firstName.1 ++ " " ++ lastName.1)),
    ("phone_numbers", phoneNumbers.1),
    ("email_addresses", .jlist [.jdict [("label",
      .jstr (if relationship == "friend" || relationship == "family" then "home"
        else "work")),
      ("email", .jstr email.1)]]),
    ("addresses", addresses.1),
    ("organization", .jstr org.1),
    ("job_title", .jstr job.1),
    ("birthday", .jstr birthday.1),
    ("notes", .jstr ""),
    ("relationship", .jstr relationship),
    ("created_date", .jstr createdDate.1)], phoneNumbers.2)

/-- Embedding of `ContactsGenerator._generate_fallback_contacts`
(contacts.py lines 106-176): one record per requested item, each reading
the wall clock once for its id. -/
def generateFallbackContacts (cfg : Config) :
    Nat → List Nat → List Nat → List JVal × List Nat × List Nat
  | 0, clock, rng => ([], clock, rng)
  | n + 1, clock, rng =>
      let c := mkFallbackContact cfg (clock.headD 0) rng
      let rest := generateFallbackContacts cfg n clock.tail c.2
      (c.1 :: rest.1, rest.2)

/-- The try-body of `ContactsGenerator.generate` (contacts.py lines
28-50): prompt, model call (whose exception propagates to the handler),
parse, clean, top up from fallback synthesis when short, truncate. -/
def contactsGenerateBody (cfg : Config) (llm : LLMOutcome) (count : Nat)
    (clock rng : List Nat) : Except String (List JVal) :=
  match llm with
  | .failed e => .error e
  | .responded r =>
      let generated := parseJsonResponse "contacts" r
      let cleaned := cleanAndValidateData cfg "contacts" generated clock rng
      let contacts := jlookupList cleaned.1 "contacts"
      let extended :=
        if decide (contacts.length < count) && cfg.use_faker_fallback then
          contacts ++ (generateFallbackContacts cfg (count - contacts.length)
            cleaned.2.1 cleaned.2.2).1
        else contacts
      .ok (extended.take count)

/-- Embedding of `ContactsGenerator.generate` (contacts.py lines 23-56):
the try-body wrapped in the catch-all handler, which substitutes full
fallback synthesis (fallback enabled) or the empty collection. -/
def contactsGenerate (cfg : Config) (llm : LLMOutcome) (count : Nat)
    (clock rng : List Nat) : Except String (List JVal) :=
  match contactsGenerateBody cfg llm count clock rng with
  | .ok res => .ok res
  | .error _ =>
      .ok (if cfg.use_faker_fallback then
        (generateFallbackContacts cfg count clock rng).1
      else [])

/-- Per-app body of `DataGenerationNode.run` (nodes.py lines 183-198)
for contacts: on a normal return store the generator's single-key dict;
only an escaping exception appends to the shared error list and stores
the empty dict. -/
def dataGenNodeContacts (cfg : Config) (llm : LLMOutcome) (count : Nat)
    (clock rng : List Nat) (errors : List String) : AppEntry × List String :=
  match contactsGenerate cfg llm count clock rng with
  | .ok l => (some ("contacts", l), errors)
  | .error e => (none, errors ++ ["Failed to generate contacts data: " ++ e])

/-- Collection carried by a normally-returning generate call. -/
def okData : Except String (List JVal) → List JVal
  | .ok l => l
  | .error _ => []

/-- The user-profile fields the alarms fallback reads (alarms.py lines
117-120): `occupation` and `lifestyle` (lowercased at the call site) and
`age` (default 30 applied at the call site). -/
structure UserProfile where
  occupation : String
  age : Nat
  lifestyle : String

/-- Lowercased ASCII codes of a profile string, as produced by
`.lower()` on the profile fields. -/
def lowerCodes (s : String) : List Nat :=
  (strCodes s).map pyLowerCode

/-- Embedding of the template records built by
`AlarmsGenerator._get_alarm_templates` (alarms.py lines 133-250). -/
structure AlarmTemplate where
  label : String
  time_range : Nat × Nat × Nat × Nat
  category : String
  frequency : String
  priority : String

/-- Embedding of `AlarmsGenerator._get_alarm_templates` (alarms.py lines
133-250): occupation/age/lifestyle keyed template groups, general
templates always appended. -/
def getAlarmTemplates (occupation : List Nat) (age : Nat) (lifestyle : List Nat) :
    List AlarmTemplate :=
  (if ["developer", "engineer", "manager", "analyst", "consultant"].any
      (fun t => containsCodes occupation (strCodes t)) then
    [⟨"Work Day", (7, 0, 8, 30), "work", "weekdays", "high"⟩,
     ⟨"Stand-up Meeting", (8, 45, 9, 15), "work", "weekdays", "medium"⟩]
  else []) ++
  (if ["nurse", "doctor", "healthcare", "medical"].any
      (fun t => containsCodes occupation (strCodes t)) then
    [⟨"Early Shift", (5, 30, 6, 30), "work", "custom", "high"⟩]
  else []) ++
  (if containsCodes occupation (strCodes "student") || decide (age < 25) then
    [⟨"Class", (8, 0, 9, 0), "personal", "weekdays", "high"⟩,
     ⟨"Study Time", (19, 0, 20, 0), "personal", "daily", "medium"⟩]
  else []) ++
  (if containsCodes lifestyle (strCodes "health") || decide (40 < age) then
    [⟨"Morning Medication", (8, 0, 8, 30), "medication", "daily", "high"⟩,
     ⟨"Evening Medication", (20, 0, 21, 0), "medication", "daily", "high"⟩]
  else []) ++
  (if ["active", "fitness", "gym", "exercise"].any
      (fun t => containsCodes lifestyle (strCodes t)) then
    [⟨"Gym Time", (6, 0, 7, 0), "exercise", "custom", "medium"⟩,
     ⟨"Evening Workout", (18, 0, 19, 30), "exercise", "custom", "medium"⟩]
  else []) ++
  [⟨"Wake Up", (6, 30, 8, 0), "personal", "weekdays", "high"⟩,
   ⟨"Weekend Wake Up", (8, 0, 10, 0), "personal", "weekends", "medium"⟩,
   ⟨"Bedtime Reminder", (22, 0, 23, 30), "sleep", "daily", "low"⟩]

/-- The built-in alarm sound names (alarms.py lines 338-343). -/
def builtInSounds : List String :=
  ["Radar", "Apex", "Bulletin", "By The Seaside", "Chimes", "Circuit",
   "Constellation", "Cosmic", "Crystals", "Hillside", "Illuminate",
   "Night Owl", "Opening", "Playtime", "Presto", "Ripples", "Sencha",
   "Signal", "Silk", "Slow Rise", "Stargaze", "Summit", "Synth"]

/-- Embedding of `AlarmsGenerator._generate_alarm_sound` (alarms.py lines
336-362).  The weighted type choice uses a percent draw with the source's
70/20/10 weights; `round(random.uniform(0.4, 1.0), 2)` is modelled in
hundredths. -/
def generateAlarmSound (rng : List Nat) : JVal × List Nat :=
  let dType := randPct rng
  let soundType : String :=
    if dType.1 < 70 then "built_in" else if dType.1 < 90 then "song" else "custom"
  let name : String × List Nat :=
    if soundType == "built_in" then pyChoice builtInSounds "Radar" dType.2
    else if soundType == "song" then
      let phrase := fakerStr "catch_phrase" dType.2
      let artist := fakerStr "name" phrase.2
      (phrase.1 ++ " - " ++ artist.1, artist.2)
    else
      let n := randint 1 10 dType.2
      ("Custom Sound " ++ toString n.1, n.2)
  let volume := draw name.2
  let vib := draw volume.2
  (.jdict [("sound_name", .jstr name.1), ("sound_type", .jstr soundType),
    ("volume", .jnat (40 + volume.1 % 61)), ("vibration", .jbool (vib.1 % 2 == 0))],
   vib.2)

/-- Embedding of `AlarmsGenerator._generate_snooze_settings` (alarms.py
lines 364-382); the 50/67/75 percent `random.choice` patterns are
modelled by residues of one draw. -/
def generateSnoozeSettings (priority : String) (rng : List Nat) : JVal × List Nat :=
  let coin := draw rng
  let enabled : Bool :=
    if priority == "high" then coin.1 % 2 == 0
    else if priority == "medium" then !(coin.1 % 3 == 2)
    else !(coin.1 % 4 == 3)
  if enabled then
    let dur := pyChoice [5, 9, 10, 15] 9 coin.2
    let maxSn := pyChoice [1, 2, 3, 5] 3 dur.2
    (.jdict [("enabled", .jbool true), ("duration_minutes", .jnat dur.1),
      ("max_snoozes", .jnat maxSn.1)], maxSn.2)
  else (.jdict [("enabled", .jbool false)], coin.2)

/-- Embedding of `AlarmsGenerator._generate_smart_wake_settings`
(alarms.py lines 384-392). -/
def generateSmartWakeSettings (rng : List Nat) : JVal × List Nat :=
  let coin := draw rng
  if coin.1 % 2 == 0 then
    let w := pyChoice [10, 15, 20, 30] 15 coin.2
    (.jdict [("enabled", .jbool true), ("window_minutes", .jnat w.1)], w.2)
  else (.jdict [("enabled", .jbool false)], coin.2)

/-- Embedding of `AlarmsGenerator._generate_alarm_statistics` (alarms.py
lines 394-425); the `random.uniform` factors are modelled in hundredths
and `round(x, 1)` in tenths. -/
def generateAlarmStatistics (enabled : Bool) (priority : String) (rng : List Nat) :
    JVal × List Nat :=
  if enabled then
    let base := randint 10 100 rng
    let snoozeRatePct : Nat :=
      if priority == "high" then 10 else if priority == "medium" then 30 else 50
    let u := draw base.2
    let timesSnoozed := base.1 * snoozeRatePct * (50 + u.1 % 101) / 10000
    let avg := timesSnoozed * 10 / max base.1 1
    let u2 := draw u.2
    let toq := base.1 * (10 + u2.1 % 31) / 100
    (.jdict [("times_triggered", .jnat base.1), ("times_snoozed", .jnat timesSnoozed),
      ("average_snooze_count", .jnat avg), ("turned_off_quickly", .jnat toq)], u2.2)
  else
    let a := randint 0 5 rng
    let b := randint 0 2 a.2
    let c := randint 0 3 b.2
    (.jdict [("times_triggered", .jnat a.1), ("times_snoozed", .jnat b.1),
      ("average_snooze_count", .jnat 0), ("turned_off_quickly", .jnat c.1)], c.2)

/-- Embedding of `AlarmsGenerator._generate_recent_timestamp` (alarms.py
lines 427-431): the wall clock minus up to 7 days. -/
def generateRecentTimestamp (now : Nat) (rng : List Nat) : String × List Nat :=
  let d := randint 0 7 rng
  (isoOf (now - d.1 * 86400), d.2)

/-- Embedding of `AlarmsGenerator._generate_future_timestamp` (alarms.py
lines 433-458), modelled shallowly: the calendar scan for the next
matching weekday is external datetime arithmetic; the embedding keeps the
observable shape — a timestamp strictly derived from the wall clock and
the alarm time. -/
def generateFutureTimestamp (now alarmMinutes : Nat) : String :=
  isoOf (now + 86400 + alarmMinutes * 60)

/-- Renders `HH:MM` with zero padding (alarms.py line 267). -/
def timeHHMM (h m : Nat) : String :=
  (if h < 10 then "0" else "") ++ toString h ++ ":" ++
    (if m < 10 then "0" else "") ++ toString m

/-- The fixed weekday list (alarms.py line 291). -/
def allWeekDays : List String :=
  ["monday", "tuesday", "wednesday", "thursday", "friday", "saturday", "sunday"]

/-- Models `random.sample(all_days, k)` keyed by one draw (the
alphabetical sort the source applies afterwards is not modelled; no
claim observes the day order). -/
def pySampleDays (k d : Nat) : List String :=
  (allWeekDays.rotate (d % 7)).take k

/-- Embedding of `AlarmsGenerator._create_alarm_from_template` (alarms.py
lines 252-334).  Wall-clock readings: one inside `_generate_id`, and for
enabled recurring alarms one in `_generate_recent_timestamp` and one in
`_generate_future_timestamp`. -/
def createAlarmFromTemplate (cfg : Config) (t : AlarmTemplate) (index : Nat)
    (clock rng : List Nat) : JVal × List Nat × List Nat :=
  let startMinutes := t.time_range.1 * 60 + t.time_range.2.1
  let endMinutes := t.time_range.2.2.1 * 60 + t.time_range.2.2.2
  let am := randint startMinutes endMinutes rng
  let alarmTime := timeHHMM (am.1 / 60) (am.1 % 60)
  let sched : JVal × List Nat :=
    if t.frequency == "weekdays" then
      (.jdict [("is_recurring", .jbool true),
        ("days_of_week", .jlist ((allWeekDays.take 5).map JVal.jstr)),
        ("frequency", .jstr "weekdays")], am.2)
    else if t.frequency == "weekends" then
      (.jdict [("is_recurring", .jbool true),
        ("days_of_week", .jlist (["saturday", "sunday"].map JVal.jstr)),
        ("frequency", .jstr "weekends")], am.2)
    else if t.frequency == "daily" then
      (.jdict [("is_recurring", .jbool true),
        ("days_of_week", .jlist (allWeekDays.map JVal.jstr)),
        ("frequency", .jstr "daily")], am.2)
    else if t.frequency == "custom" then
      let k := randint 2 5 am.2
      let sel := draw k.2
      (.jdict [("is_recurring", .jbool true),
        ("days_of_week", .jlist ((pySampleDays k.1 sel.1).map JVal.jstr)),
        ("frequency", .jstr "custom")], sel.2)
    else
      (.jdict [("is_recurring", .jbool false), ("frequency", .jstr "once")], am.2)
  let isRecurring : Bool :=
    t.frequency == "weekdays" || t.frequency == "weekends" ||
      t.frequency == "daily" || t.frequency == "custom"
  let en := draw sched.2
  let enabled : Bool := !(en.1 % 4 == 3)
  let gid := generateIdAt "alarms" (clock.headD 0) en.2
  let clock1 := clock.tail
  let sound := generateAlarmSound gid.2
  let snooze := generateSnoozeSettings t.priority sound.2
  let smartWake := generateSmartWakeSettings snooze.2
  let created := generateRealisticTimestamp cfg smartWake.2
  let modified := generateRealisticTimestamp cfg created.2
  let stats := generateAlarmStatistics enabled t.priority modified.2
  let base : List (String × JVal) := [
    ("id", .jstr ("alarm_" ++ gid.1 ++ "_" ++ toString index)),
    ("label", .jstr t.label),
    ("time", .jstr alarmTime),
    ("enabled", .jbool enabled),
    ("repeat_schedule", sched.1),
    ("sound", sound.1),
    ("snooze", snooze.1),
    ("bedtime_alarm", .jbool (t.category == "sleep")),
    ("smart_wake", smartWake.1),
    ("category", .jstr t.category),
    ("created_date", .jstr created.1),
    ("last_modified", .jstr modified.1),
    ("statistics", stats.1)]
  let trig : List (String × JVal) × List Nat × List Nat :=
    if enabled && isRecurring then
      let lastTrig := generateRecentTimestamp (clock1.headD 0) stats.2
      (base ++ [("last_triggered", .jstr lastTrig.1),
        ("next_trigger", .jstr (generateFutureTimestamp (clock1.tail.headD 0) am.1))],
       clock1.tail.tail, lastTrig.2)
    else (base, clock1, stats.2)
  let loc1 := draw trig.2.2
  let loc2 := draw loc1.2
  (.jdict (trig.1 ++ [("location_based", .jdict [
      ("enabled", .jbool (loc1.1 % 2 == 0)),
      ("travel_adjustment", .jbool (loc2.1 % 2 == 0))])]),
   trig.2.1, loc2.2)

/-- Template used as the `random.choice` default (never selected: the
template list always contains the general templates). -/
def defaultAlarmTemplate : AlarmTemplate :=
  ⟨"Wake Up", (6, 30, 8, 0), "personal", "weekdays", "high"⟩

/-- The generation loop of `AlarmsGenerator._generate_fallback_alarms`
(alarms.py lines 125-129): one template choice and one alarm per
requested item, the loop index feeding the alarm id. -/
def fallbackAlarmsAux (cfg : Config) (templates : List AlarmTemplate) :
    Nat → Nat → List Nat → List Nat → List JVal × List Nat × List Nat
  | 0, _, clock, rng => ([], clock, rng)
  | n + 1, index, clock, rng =>
      let t := pyChoice templates defaultAlarmTemplate rng
      let a := createAlarmFromTemplate cfg t.1 index clock t.2
      let rest := fallbackAlarmsAux cfg templates n (index + 1) a.2.1 a.2.2
      (a.1 :: rest.1, rest.2)

/-- Embedding of `AlarmsGenerator._generate_fallback_alarms` (alarms.py
lines 112-131). -/
def generateFallbackAlarms (cfg : Config) (profile : UserProfile) (count : Nat)
    (clock rng : List Nat) : List JVal × List Nat × List Nat :=
  fallbackAlarmsAux cfg
    (getAlarmTemplates (lowerCodes profile.occupation) profile.age
      (lowerCodes profile.lifestyle))
    count 0 clock rng

/-- The try-body of `AlarmsGenerator.generate` (alarms.py lines 29-43). -/
def alarmsGenerateBody (cfg : Config) (profile : UserProfile) (llm : LLMOutcome)
    (count : Nat) (clock rng : List Nat) : Except String (List JVal) :=
  match llm with
  | .failed e => .error e
  | .responded r =>
      let generated := parseJsonResponse "alarms" r
      let cleaned := cleanAndValidateData cfg "alarms" generated clock rng
      let alarms := jlookupList cleaned.1 "alarms"
      let extended :=
        if decide (alarms.length < count) && cfg.use_faker_fallback then
          alarms ++ (generateFallbackAlarms cfg profile (count - alarms.length)
            cleaned.2.1 cleaned.2.2).1
        else alarms
      .ok (extended.take count)

/-- Embedding of `AlarmsGenerator.generate` (alarms.py lines 24-49). -/
def alarmsGenerate (cfg : Config) (profile : UserProfile) (llm : LLMOutcome)
    (count : Nat) (clock rng : List Nat) : Except String (List JVal) :=
  match alarmsGenerateBody cfg profile llm count clock rng with
  | .ok res => .ok res
  | .error _ =>
      .ok (if cfg.use_faker_fallback then
        (generateFallbackAlarms cfg profile count clock rng).1
      else [])

/-- Concrete configuration with fallback synthesis enabled, used in
witnesses and counterexamples. -/
def cfgFallback : Config :=
  { use_faker_fallback := true, max_validation_errors := 10,
    data_volume := [("contacts", 3), ("alarms", 2)],
    enabled_apps := ["contacts", "alarms"],
    start_date := 1704067200, end_date := 1717113600,
    max_regeneration_attempts := 3 }

/-- Concrete configuration with fallback synthesis disabled. -/
def cfgNoFallback : Config :=
  { cfgFallback with use_faker_fallback := false }

/-- Identifier field of a record. -/
def recordId : JVal → Option JVal
  | .jdict kvs => jlookup kvs "id"
  | _ => none

/-- Model response carrying two contact records that both declare the
empty string as their identifier. -/
def dupIdResponse : List (String × JVal) :=
  [("contacts", .jlist [.jdict [("id", .jstr "")], .jdict [("id", .jstr "")]])]

/-- Blanks the value stored under the `id` key of a record's field list
(spec-side helper for stating what is and is not clock-dependent). -/
def eraseIdPairs : List (String × JVal) → List (String × JVal)
  | [] => []
  | (k, v) :: rest => (k, if k == "id" then JVal.jstr "" else v) :: eraseIdPairs rest

/-- Blanks the id field of a record. -/
def eraseContactId : JVal → JVal
  | .jdict kvs => .jdict (eraseIdPairs kvs)
  | v => v

/-- Identifier strings of a record list (spec-side extraction helper). -/
def idStringsOf (l : List JVal) : List String :=
  l.map (fun e =>
    match e with
    | .jdict kvs =>
        match jlookup kvs "id" with
        | some (.jstr s) => s
        | _ => ""
    | _ => "")

theorem dictGetD_of_not_mem (d : List (String × Nat)) (k : String) (dflt : Nat)
    (h : ∀ p ∈ d, p.1 ≠ k) : dictGetD d k dflt = dflt := by
  unfold dictGetD
  have hfind : d.find? (fun p => p.1 == k) = none := by
    rw [List.find?_eq_none]
    intro p hp
    simpa using h p hp
  rw [hfind]
  rfl

/-- C10: for an app enabled but absent from `data_volume`, the generation
stage requests 10 records (and in particular does not skip the app, whose
skip condition is a count of 0), while `Config.get_app_data_count`
reports 0 for the same app. -/
theorem generation_default_count_mismatch (dv : List (String × Nat)) (app : String)
    (h : ∀ p ∈ dv, p.1 ≠ app) :
    generationDataVolume dv app = 10 ∧ get_app_data_count dv app = 0 ∧
      generationDataVolume dv app ≠ 0 := by
  refine ⟨dictGetD_of_not_mem dv app 10 h, dictGetD_of_not_mem dv app 0 h, ?_⟩
  unfold generationDataVolume
  rw [dictGetD_of_not_mem dv app 10 h]
  decide

/-- Witness for C10 at a concrete configuration: `alarms` enabled but
missing from the volume dict. -/
theorem generation_default_count_mismatch_witness :
    (∀ p ∈ [("contacts", 15)], Prod.fst p ≠ "alarms") ∧
      (generationDataVolume [("contacts", 15)] "alarms" = 10 ∧
        get_app_data_count [("contacts", 15)] "alarms" = 0 ∧
        generationDataVolume [("contacts", 15)] "alarms" ≠ 0) :=
  ⟨by decide, generation_default_count_mismatch [("contacts", 15)] "alarms" (by decide)⟩

/-- C2: the regeneration decision is `"regenerate"` exactly when some
app's validation result has positive `critical_errors` or the summed
`total_errors` exceed `config.max_validation_errors`, and `"continue"`
otherwise; the workflow's conditional-edge map sends `"regenerate"` to
`generate_data` and `"continue"` to `reflect_quality`. -/
theorem should_regenerate_spec (r : List (String × VResult)) (m : Nat) :
    (shouldRegenerate r m = "regenerate" ↔
      ((∃ p ∈ r, 0 < p.2.critical_errors) ∨
        m < (r.map (fun p => p.2.total_errors)).sum)) ∧
    (shouldRegenerate r m = "continue" ↔
      ¬((∃ p ∈ r, 0 < p.2.critical_errors) ∨
        m < (r.map (fun p => p.2.total_errors)).sum)) := by
  unfold shouldRegenerate
  by_cases h1 : r.any (fun p => 0 < p.2.critical_errors)
  · rw [if_pos h1]
    rw [List.any_eq_true] at h1
    constructor
    · simp only [true_iff]
      exact Or.inl (by simpa using h1)
    · constructor
      · intro hc
        exact absurd hc (by decide)
      · intro hc
        exact absurd (Or.inl (by simpa using h1)) hc
  · rw [if_neg h1]
    have h1' : ¬∃ p ∈ r, 0 < p.2.critical_errors := by
      intro hc
      exact h1 (List.any_eq_true.mpr (by simpa using hc))
    by_cases h2 : m < (r.map (fun p => p.2.total_errors)).sum
    · rw [if_pos h2]
      constructor
      · simp only [true_iff]
        exact Or.inr h2
      · constructor
        · intro hc
          exact absurd hc (by decide)
        · intro hc
          exact absurd (Or.inr h2) hc
    · rw [if_neg h2]
      constructor
      · constructor
        · intro hc
          exact absurd hc (by decide)
        · intro hc
          rcases hc with hc | hc
          · exact absurd hc h1'
          · exact absurd hc h2
      · simp only [true_iff]
        intro hc
        rcases hc with hc | hc
        · exact absurd hc h1'
        · exact absurd hc h2

theorem startsWithCodes_mem (l n : List Nat) (h : startsWithCodes l n = true) :
    ∀ x ∈ n, x ∈ l := by
  induction l generalizing n with
  | nil =>
      cases n with
      | nil => intro x hx; cases hx
      | cons c cs => cases h
  | cons c cs ih =>
      cases n with
      | nil => intro x hx; cases hx
      | cons d ds =>
          rw [startsWithCodes, Bool.and_eq_true, beq_iff_eq] at h
          intro x hx
          rcases List.mem_cons.mp hx with rfl | hx
          · exact List.mem_cons.mpr (Or.inl h.1.symm)
          · exact List.mem_cons.mpr (Or.inr (ih ds h.2 x hx))

theorem containsCodes_mem (l n : List Nat) (h : containsCodes l n = true) :
    ∀ x ∈ n, x ∈ l := by
  induction l with
  | nil =>
      rw [containsCodes, List.isEmpty_iff] at h
      subst h
      intro x hx; cases hx
  | cons c cs ih =>
      rw [containsCodes, Bool.or_eq_true] at h
      rcases h with h | h
      · exact startsWithCodes_mem _ _ h
      · intro x hx
        exact List.mem_cons.mpr (Or.inr (ih h x hx))

theorem pyLowerCode_ne_uppercase (c : Nat) (u : Nat) (h65 : 65 ≤ u) (h90 : u ≤ 90) :
    pyLowerCode c ≠ u := by
  unfold pyLowerCode
  split
  · omega
  · omega

/-- The `additionalProperties` pattern of `_is_critical_error` can never
match: the error message is lowercased first, and the pattern contains the
uppercase `P` (code 80). -/
theorem containsCodes_lower_additionalProperties (m : List Nat) :
    containsCodes (m.map pyLowerCode) (strCodes "additionalProperties") = false := by
  cases h : containsCodes (m.map pyLowerCode) (strCodes "additionalProperties")
  · rfl
  · exfalso
    have hP : (80 : Nat) ∈ strCodes "additionalProperties" := by decide
    have hmem := containsCodes_mem _ _ h 80 hP
    rcases List.mem_map.mp hmem with ⟨c, _, hc⟩
    exact pyLowerCode_ne_uppercase c 80 (by omega) (by omega) hc

/-- C5 counterexample: on the message `additionalProperties`, the claim's
case-insensitive criterion holds, yet the code classifies the single
error as non-critical (critical_errors = 0). -/
theorem validate_critical_pattern_counterexample :
    specCriticalContains (strCodes "additionalProperties") = true ∧
    (validate_app_data "contacts"
        (.schemaViolation (strCodes "additionalProperties"))).critical_errors = 0 := by
  constructor
  · decide
  · decide

/-- C5 (amended): `validate_app_data` reports at most one error (zero
exactly on success), and on a schema violation the single error is
critical iff the lowercased message contains `required`, `type` or
`format` — the `additionalProperties` pattern never fires because the
message is lowercased before the case-sensitive substring test. -/
theorem validate_app_data_error_counts (app : String) (outcome : ValidateOutcome) :
    (validate_app_data app outcome).total_errors ≤ 1 ∧
    ((validate_app_data app outcome).total_errors = 0 ↔ ∃ n, outcome = .ok n) ∧
    (∀ m, outcome = .schemaViolation m →
      ((validate_app_data app outcome).critical_errors = 1 ↔
        (containsCodes (m.map pyLowerCode) (strCodes "required") = true ∨
         containsCodes (m.map pyLowerCode) (strCodes "type") = true ∨
         containsCodes (m.map pyLowerCode) (strCodes "format") = true))) := by
  cases outcome with
  | ok n =>
      refine ⟨by simp [validate_app_data], by simp [validate_app_data], ?_⟩
      intro m hm
      exact ValidateOutcome.noConfusion hm
  | schemaViolation m0 =>
      refine ⟨by simp [validate_app_data], by simp [validate_app_data], ?_⟩
      intro m hm
      injection hm with hm0
      subst hm0
      have hcrit : is_critical_error m0 =
          (containsCodes (m0.map pyLowerCode) (strCodes "required") ||
           containsCodes (m0.map pyLowerCode) (strCodes "type") ||
           containsCodes (m0.map pyLowerCode) (strCodes "format")) := by
        unfold is_critical_error
        simp [containsCodes_lower_additionalProperties m0, Bool.or_assoc]
      show (if is_critical_error m0 then 1 else 0) = 1 ↔ _
      rw [hcrit]
      cases h1 : containsCodes (m0.map pyLowerCode) (strCodes "required") <;>
        cases h2 : containsCodes (m0.map pyLowerCode) (strCodes "type") <;>
        cases h3 : containsCodes (m0.map pyLowerCode) (strCodes "format") <;>
        simp
  | otherError m0 =>
      refine ⟨by simp [validate_app_data], by simp [validate_app_data], ?_⟩
      intro m hm
      exact ValidateOutcome.noConfusion hm

/-- Witness for C5's amended theorem, applied to a message containing
`type`. -/
theorem validate_app_data_error_counts_witness :
    (validate_app_data "contacts"
        (.schemaViolation (strCodes "is not of type object"))).total_errors ≤ 1 ∧
    ((validate_app_data "contacts"
        (.schemaViolation (strCodes "is not of type object"))).critical_errors = 1 ↔
      (containsCodes ((strCodes "is not of type object").map pyLowerCode)
          (strCodes "required") = true ∨
       containsCodes ((strCodes "is not of type object").map pyLowerCode)
          (strCodes "type") = true ∨
       containsCodes ((strCodes "is not of type object").map pyLowerCode)
          (strCodes "format") = true)) :=
  ⟨(validate_app_data_error_counts "contacts" _).1,
   (validate_app_data_error_counts "contacts" _).2.2 _ rfl⟩

theorem shouldRegenerate_of_critical (r : List (String × VResult)) (m : Nat)
    (h : ∃ p ∈ r, 0 < p.2.critical_errors) :
    shouldRegenerate r m = "regenerate" := by
  unfold shouldRegenerate
  rw [if_pos (List.any_eq_true.mpr (by simpa using h))]

theorem workflowRun_stays_in_cycle (vres : Nat → List (String × VResult)) (m : Nat)
    (h : ∀ k, ∃ p ∈ vres k, 0 < p.2.critical_errors) (n : Nat) :
    ∀ s : WNode × Nat,
      (s.1 = .analyze_profile ∨ s.1 = .generate_data ∨ s.1 = .validate_data) →
      ((workflowRun vres m n s).1 = .analyze_profile ∨
       (workflowRun vres m n s).1 = .generate_data ∨
       (workflowRun vres m n s).1 = .validate_data) := by
  induction n with
  | zero => intro s hs; exact hs
  | succ n ih =>
      intro s hs
      rcases s with ⟨node, k⟩
      rcases hs with hs | hs | hs <;> subst hs
      · exact ih (.generate_data, k) (Or.inr (Or.inl rfl))
      · exact ih (.validate_data, k) (Or.inr (Or.inr rfl))
      · have hdec := shouldRegenerate_of_critical (vres k) m (h k)
        have hstep : workflowRun vres m (n + 1) (WNode.validate_data, k)
            = workflowRun vres m n (WNode.generate_data, k + 1) := by
          have hnext : workflowNext vres m (WNode.validate_data, k)
              = (WNode.generate_data, k + 1) := by
            simp only [workflowNext]
            rw [if_pos hdec]
          calc workflowRun vres m (n + 1) (WNode.validate_data, k)
              = workflowRun vres m n (workflowNext vres m (WNode.validate_data, k)) := rfl
            _ = workflowRun vres m n (WNode.generate_data, k + 1) := by rw [hnext]
        rw [hstep]
        exact ih (.generate_data, k + 1) (Or.inr (Or.inl rfl))

/-- C3 (code defect evidence): with a validator that reports a critical
error on every pass, the workflow never reaches `reflect_quality` (nor
termination), however many transitions are taken — there is no iteration
cap on the regenerate cycle and `config.max_regeneration_attempts` is
never consulted. -/
theorem regenerate_cycle_unbounded (vres : Nat → List (String × VResult)) (m : Nat)
    (h : ∀ k, ∃ p ∈ vres k, 0 < p.2.critical_errors) (n : Nat) :
    (workflowRun vres m n (.analyze_profile, 0)).1 ≠ .reflect_quality ∧
    (workflowRun vres m n (.analyze_profile, 0)).1 ≠ .done := by
  have hc := workflowRun_stays_in_cycle vres m h n (.analyze_profile, 0) (Or.inl rfl)
  rcases hc with hc | hc | hc <;> rw [hc] <;> exact ⟨by decide, by decide⟩

/-- Witness for C3's theorem: an always-critical validator over app
`contacts`, ceiling 10, after 30 transitions. -/
theorem regenerate_cycle_unbounded_witness :
    (∀ k : Nat, ∃ p ∈ [("contacts", validate_app_data "contacts"
        (.otherError (strCodes "boom")))], 0 < (Prod.snd p).critical_errors) ∧
    ((workflowRun (fun _ => [("contacts", validate_app_data "contacts"
        (.otherError (strCodes "boom")))]) 10 30 (.analyze_profile, 0)).1 ≠
      WNode.reflect_quality ∧
     (workflowRun (fun _ => [("contacts", validate_app_data "contacts"
        (.otherError (strCodes "boom")))]) 10 30 (.analyze_profile, 0)).1 ≠
      WNode.done) :=
  ⟨fun _ => ⟨_, List.mem_cons_self _ _, by decide⟩,
   regenerate_cycle_unbounded _ 10
     (fun _ => ⟨_, List.mem_cons_self _ _, by decide⟩) 30⟩

/-- C8 counterexample: with `data_volume` 5 for contacts and a generated
entry whose record collection is empty (the dict the generator returns
after a total failure with fallback disabled), no app has a non-empty
collection, yet the reflection stage still invokes the model and does
not store the skipped result. -/
theorem reflection_skip_counterexample :
    (reflectionRun [("contacts", 5)] [("contacts", some ("contacts", []))]
        sampleReflection).2 = true ∧
    (reflectionRun [("contacts", 5)] [("contacts", some ("contacts", []))]
        sampleReflection).1 ≠ skippedReflection := by
  constructor
  · rfl
  · decide

/-- C8 (amended): the reflection stage skips the model call iff no app
has both a positive data volume (default 10) and a truthy entry in
`generated_data` — an entry `data_key ↦ []` counts as truthy — and
whenever it skips, it stores exactly the fixed skipped result. -/
theorem reflection_skip_iff (dv : List (String × Nat))
    (gen : List (String × AppEntry)) (r : ReflectionResult) :
    ((reflectionRun dv gen r).2 = false ↔
      ∀ p ∈ gen, ¬(0 < dictGetD dv p.1 10 ∧ p.2.isSome = true)) ∧
    ((reflectionRun dv gen r).2 = false →
      (reflectionRun dv gen r).1 = skippedReflection) := by
  unfold reflectionRun
  by_cases h : (gen.filter (fun p => decide (0 < dictGetD dv p.1 10) && p.2.isSome)).isEmpty
  · rw [if_pos h]
    rw [List.isEmpty_iff, List.filter_eq_nil_iff] at h
    constructor
    · simp only [true_iff]
      intro p hp hc
      exact h p hp (by simp [hc.1, hc.2])
    · intro _
      rfl
  · rw [if_neg h]
    constructor
    · constructor
      · intro hc
        exact Bool.noConfusion hc
      · intro hall
        exfalso
        apply h
        rw [List.isEmpty_iff, List.filter_eq_nil_iff]
        intro p hp hc
        rw [Bool.and_eq_true, decide_eq_true_eq] at hc
        exact hall p hp ⟨hc.1, hc.2⟩
    · intro hc
      exact Bool.noConfusion hc

/-- Witness for C8's amended theorem at the empty generated-data map. -/
theorem reflection_skip_iff_witness :
    ((reflectionRun [("contacts", 5)] [] sampleReflection).2 = false ↔
      ∀ p ∈ ([] : List (String × AppEntry)),
        ¬(0 < dictGetD [("contacts", 5)] p.1 10 ∧ p.2.isSome = true)) ∧
    ((reflectionRun [("contacts", 5)] [] sampleReflection).2 = false →
      (reflectionRun [("contacts", 5)] [] sampleReflection).1 = skippedReflection) :=
  reflection_skip_iff [("contacts", 5)] [] sampleReflection

/-- C9 counterexample: an app whose generated collection is empty (entry
`contacts ↦ []`) is still validated — a validation result for it is
recorded, contradicting the claim that such an app gets no validation
result. -/
theorem validation_empty_collection_counterexample :
    validationRun [("contacts", 5)]
        (fun a _ => validate_app_data a (.ok 0))
        [("contacts", some ("contacts", []))] =
      [("contacts", validate_app_data "contacts" (.ok 0))] := by
  rfl

/-- C9 (amended): the validation stage records no result exactly for the
apps whose `generated_data` entry is the falsy empty dict (as stored
after a caught generation failure) or whose data volume is 0; deleting
such an entry changes neither the recorded results nor the subsequent
regeneration decision, so such an app cannot by itself trigger the
regenerate branch. -/
theorem validation_skips_empty_dict_entries (dv : List (String × Nat))
    (v : String → String × List JVal → VResult)
    (xs ys : List (String × AppEntry)) (a : String) (m : Nat) :
    validationRun dv v (xs ++ (a, none) :: ys) = validationRun dv v (xs ++ ys) ∧
    shouldRegenerate (validationRun dv v (xs ++ (a, none) :: ys)) m =
      shouldRegenerate (validationRun dv v (xs ++ ys)) m := by
  have h : validationRun dv v (xs ++ (a, none) :: ys) = validationRun dv v (xs ++ ys) := by
    unfold validationRun
    rw [List.filterMap_append, List.filterMap_append, List.filterMap_cons]
    simp only [ite_self]
  exact ⟨h, by rw [h]⟩

theorem generateFallbackContacts_length (cfg : Config) (n : Nat) :
    ∀ clock rng : List Nat, (generateFallbackContacts cfg n clock rng).1.length = n := by
  induction n with
  | zero => intro clock rng; rfl
  | succ n ih =>
      intro clock rng
      show ((mkFallbackContact cfg (clock.headD 0) rng).1 ::
        (generateFallbackContacts cfg n clock.tail
          (mkFallbackContact cfg (clock.headD 0) rng).2).1).length = n + 1
      rw [List.length_cons, ih]

theorem fallbackAlarmsAux_length (cfg : Config) (templates : List AlarmTemplate)
    (n : Nat) : ∀ (index : Nat) (clock rng : List Nat),
    (fallbackAlarmsAux cfg templates n index clock rng).1.length = n := by
  induction n with
  | zero => intro index clock rng; rfl
  | succ n ih =>
      intro index clock rng
      show ((createAlarmFromTemplate cfg
          (pyChoice templates defaultAlarmTemplate rng).1 index clock
          (pyChoice templates defaultAlarmTemplate rng).2).1 ::
        (fallbackAlarmsAux cfg templates n (index + 1) _ _).1).length = n + 1
      rw [List.length_cons, ih]

theorem generateFallbackAlarms_length (cfg : Config) (profile : UserProfile)
    (count : Nat) (clock rng : List Nat) :
    (generateFallbackAlarms cfg profile count clock rng).1.length = count :=
  fallbackAlarmsAux_length cfg _ count 0 clock rng

theorem take_shortfall_length {α : Type} (l extra : List α) (count : Nat)
    (hlt : l.length < count) (hx : extra.length = count - l.length) :
    ((l ++ extra).take count).length = count := by
  rw [List.length_take, List.length_append, hx]
  omega

/-- C1: with fallback synthesis enabled, a generate call returns exactly
`count` records for its app's data key — whether the model call
succeeded (possibly under- or over-producing) or raised — shown for the
contacts and alarms generators. -/
theorem generate_count_exact (cfg : Config) (profile : UserProfile)
    (llmC llmA : LLMOutcome) (count : Nat) (clockC rngC clockA rngA : List Nat)
    (hfb : cfg.use_faker_fallback = true) :
    (okData (contactsGenerate cfg llmC count clockC rngC)).length = count ∧
    (okData (alarmsGenerate cfg profile llmA count clockA rngA)).length = count := by
  constructor
  · cases llmC with
    | failed e =>
        show (if cfg.use_faker_fallback then
            (generateFallbackContacts cfg count clockC rngC).1 else []).length = count
        rw [hfb, if_pos rfl, generateFallbackContacts_length]
    | responded r =>
        simp only [contactsGenerate, contactsGenerateBody, okData]
        rw [hfb]
        set contacts := jlookupList (cleanAndValidateData cfg "contacts"
          (parseJsonResponse "contacts" r) clockC rngC).1 "contacts" with hcs
        by_cases hlt : contacts.length < count
        · rw [decide_eq_true hlt, Bool.true_and, if_pos rfl]
          exact take_shortfall_length _ _ count hlt
            (generateFallbackContacts_length cfg (count - contacts.length) _ _)
        · rw [decide_eq_false hlt, Bool.false_and, if_neg (by decide)]
          rw [List.length_take]
          omega
  · cases llmA with
    | failed e =>
        show (if cfg.use_faker_fallback then
            (generateFallbackAlarms cfg profile count clockA rngA).1 else []).length = count
        rw [hfb, if_pos rfl, generateFallbackAlarms_length]
    | responded r =>
        simp only [alarmsGenerate, alarmsGenerateBody, okData]
        rw [hfb]
        set alarms := jlookupList (cleanAndValidateData cfg "alarms"
          (parseJsonResponse "alarms" r) clockA rngA).1 "alarms" with has
        by_cases hlt : alarms.length < count
        · rw [decide_eq_true hlt, Bool.true_and, if_pos rfl]
          exact take_shortfall_length _ _ count hlt
            (generateFallbackAlarms_length cfg profile (count - alarms.length) _ _)
        · rw [decide_eq_false hlt, Bool.false_and, if_neg (by decide)]
          rw [List.length_take]
          omega

/-- Witness for C1: a model failure with fallback enabled still yields
exactly the requested two records per generator. -/
theorem generate_count_exact_witness :
    cfgFallback.use_faker_fallback = true ∧
    (okData (contactsGenerate cfgFallback (.failed "x") 2 [] [])).length = 2 ∧
    (okData (alarmsGenerate cfgFallback ⟨"nurse", 30, "active"⟩ (.failed "x")
      2 [] [])).length = 2 :=
  ⟨rfl,
   (generate_count_exact cfgFallback ⟨"nurse", 30, "active"⟩ (.failed "x")
     (.failed "x") 2 [] [] [] [] rfl).1,
   (generate_count_exact cfgFallback ⟨"nurse", 30, "active"⟩ (.failed "x")
     (.failed "x") 2 [] [] [] [] rfl).2⟩

/-- C4 (amended): a generate call always returns normally (worst case
the empty collection, when the model raised and fallback is disabled),
and precisely because no exception escapes it, the calling generation
stage leaves the shared error list unchanged — the failure is only
logged inside the generator, never appended by `DataGenerationNode.run`. -/
theorem contacts_generate_total (cfg : Config) (llm : LLMOutcome) (count : Nat)
    (clock rng : List Nat) (errors : List String) :
    (∃ l, contactsGenerate cfg llm count clock rng = .ok l) ∧
    (cfg.use_faker_fallback = false → ∀ e, llm = .failed e →
      contactsGenerate cfg llm count clock rng = .ok []) ∧
    (dataGenNodeContacts cfg llm count clock rng errors).2 = errors := by
  cases llm with
  | failed e =>
      refine ⟨⟨_, rfl⟩, ?_, rfl⟩
      intro hfb e2 _
      show Except.ok (if cfg.use_faker_fallback then
        (generateFallbackContacts cfg count clock rng).1 else []) = Except.ok []
      rw [hfb, if_neg (by decide)]
  | responded r =>
      refine ⟨⟨_, rfl⟩, ?_, rfl⟩
      intro _ e he
      exact LLMOutcome.noConfusion he

/-- C4 counterexample: a raising model client with fallback disabled —
`generate` returns the empty collection normally, and the calling
stage's error list stays empty (the claim predicated an appended
failure entry). -/
theorem generation_failure_not_logged_counterexample :
    contactsGenerate cfgNoFallback (.failed "rate limit") 3 [] [] = .ok [] ∧
    (dataGenNodeContacts cfgNoFallback (.failed "rate limit") 3 [] [] []).2 = [] :=
  ⟨rfl, rfl⟩

/-- Witness for C4's amended theorem at a failing model call with
fallback disabled and a non-empty prior error list. -/
theorem contacts_generate_total_witness :
    (∃ l, contactsGenerate cfgNoFallback (.failed "boom") 2 [] [] = .ok l) ∧
    (cfgNoFallback.use_faker_fallback = false ∧
      contactsGenerate cfgNoFallback (.failed "boom") 2 [] [] = .ok []) ∧
    (dataGenNodeContacts cfgNoFallback (.failed "boom") 2 [] [] ["prior"]).2 = ["prior"] :=
  ⟨(contacts_generate_total cfgNoFallback (.failed "boom") 2 [] [] ["prior"]).1,
   ⟨rfl, (contacts_generate_total cfgNoFallback (.failed "boom") 2 [] [] ["prior"]).2.1
      rfl "boom" rfl⟩,
   (contacts_generate_total cfgNoFallback (.failed "boom") 2 [] [] ["prior"]).2.2⟩

/-- C6 counterexample: a single generate call whose two returned records
share the identifier `""` — which is also empty — because model-supplied
ids are preserved verbatim by `_clean_entry`. -/
theorem duplicate_id_counterexample :
    (okData (contactsGenerate cfgFallback (.responded (some dupIdResponse))
      2 [] [])).map recordId = [some (.jstr ""), some (.jstr "")] := by
  rfl

theorem jlookup_jset_ne (kvs : List (String × JVal)) (k k2 : String) (v : JVal)
    (h : k2 ≠ k) : jlookup (jset kvs k v) k2 = jlookup kvs k2 := by
  induction kvs with
  | nil => rfl
  | cons p rest ih =>
      show jlookup ((if p.1 == k then (p.1, v) else p) :: jset rest k v) k2 = _
      by_cases hpk : p.1 = k
      · have hp2 : (p.1 == k2) = false := by
          rw [beq_eq_false_iff_ne, hpk]
          exact fun hc => h hc.symm
        rw [if_pos (beq_iff_eq.mpr hpk)]
        simp only [jlookup, List.find?_cons, hp2]
        exact ih
      · rw [if_neg (fun hc => hpk (beq_iff_eq.mp hc))]
        simp only [jlookup, List.find?_cons]
        cases hp2 : p.1 == k2
        · exact ih
        · rfl

theorem jlookup_backfill_ne (cfg : Config) (k k2 : String)
    (entry : List (String × JVal)) (rng : List Nat) (h : k2 ≠ k) :
    jlookup (backfillTimestampField cfg k entry rng).1 k2 = jlookup entry k2 := by
  unfold backfillTimestampField
  cases hv : jlookup entry k with
  | none => rfl
  | some v =>
      show jlookup (if jFalsy v = true then
          (jset entry k (JVal.jstr (generateRealisticTimestamp cfg rng).1),
            (generateRealisticTimestamp cfg rng).2)
        else (entry, rng)).1 k2 = jlookup entry k2
      by_cases hf : jFalsy v = true
      · rw [if_pos hf]
        exact jlookup_jset_ne entry k k2 _ h
      · rw [if_neg hf]

theorem jlookup_ensureTimestamps_id (cfg : Config) (entry : List (String × JVal))
    (rng : List Nat) :
    jlookup (ensureTimestamps cfg entry rng).1 "id" = jlookup entry "id" := by
  unfold ensureTimestamps
  rw [jlookup_backfill_ne _ _ _ _ _ (by decide),
    jlookup_backfill_ne _ _ _ _ _ (by decide),
    jlookup_backfill_ne _ _ _ _ _ (by decide)]

theorem jlookup_append_single_of_none (kvs : List (String × JVal)) (k : String)
    (v : JVal) (h : jlookup kvs k = none) :
    jlookup (kvs ++ [(k, v)]) k = some v := by
  induction kvs with
  | nil =>
      simp only [List.nil_append, jlookup, List.find?_cons, beq_self_eq_true]
      rfl
  | cons p rest ih =>
      rw [List.cons_append]
      simp only [jlookup, List.find?_cons] at h ⊢
      cases hp : p.1 == k
      · rw [hp] at h
        exact ih h
      · rw [hp] at h
        simp at h

theorem generateIdAt_ne_empty (appName : String) (ts : Nat) (rng : List Nat) :
    (generateIdAt appName ts rng).1 ≠ "" := by
  intro hc
  have hlen := congrArg String.length hc
  simp only [generateIdAt, String.length_append] at hlen
  have h1 : "_".length = 1 := rfl
  have h0 : "".length = 0 := rfl
  rw [h1, h0] at hlen
  omega

/-- C6 (amended): every cleaned record carries an `id` key; a record
that arrived without one is assigned the generated non-empty
`contacts_ts_rand` identifier, but model-supplied identifiers (possibly
empty, possibly shared between records of the same call) are preserved
verbatim. -/
theorem clean_entry_id_assignment (cfg : Config) (kvs : List (String × JVal))
    (clock rng : List Nat) :
    (jlookup (cleanEntry cfg "contacts" kvs clock rng).1 "id").isSome = true ∧
    (jlookup kvs "id" = none →
      jlookup (cleanEntry cfg "contacts" kvs clock rng).1 "id" =
        some (.jstr (generateIdAt "contacts" (clock.headD 0) rng).1)) ∧
    (generateIdAt "contacts" (clock.headD 0) rng).1 ≠ "" := by
  refine ⟨?_, ?_, generateIdAt_ne_empty _ _ _⟩
  · cases hid : jlookup kvs "id" with
    | some v =>
        simp only [cleanEntry, hid]
        rw [jlookup_ensureTimestamps_id, hid]
        rfl
    | none =>
        simp only [cleanEntry, hid]
        rw [jlookup_ensureTimestamps_id,
          jlookup_append_single_of_none kvs "id" _ hid]
        rfl
  · intro hid
    simp only [cleanEntry, hid]
    rw [jlookup_ensureTimestamps_id,
      jlookup_append_single_of_none kvs "id" _ hid]

/-- Witness for C6's amended theorem: an entry with no id receives the
generated identifier. -/
theorem clean_entry_id_assignment_witness :
    jlookup [("first_name", JVal.jstr "Ada")] "id" = none ∧
    jlookup (cleanEntry cfgFallback "contacts"
        [("first_name", JVal.jstr "Ada")] [5] [3]).1 "id" =
      some (.jstr (generateIdAt "contacts" (([5] : List Nat).headD 0) [3]).1) :=
  ⟨rfl, (clean_entry_id_assignment cfgFallback
    [("first_name", JVal.jstr "Ada")] [5] [3]).2.1 rfl⟩

theorem mkFallbackContact_clock_oblivious (cfg : Config) (ts ts2 : Nat)
    (rng : List Nat) :
    eraseContactId (mkFallbackContact cfg ts rng).1 =
      eraseContactId (mkFallbackContact cfg ts2 rng).1 ∧
    (mkFallbackContact cfg ts rng).2 = (mkFallbackContact cfg ts2 rng).2 :=
  ⟨rfl, rfl⟩

/-- C7 (amended): with the pseudo-random stream fixed, two runs of the
contacts fallback synthesis agree on everything except the record ids
(which embed the `datetime.now()` wall-clock reading) and leave the
random stream in the same state; fixing the clock as well makes the runs
identical. -/
theorem fallback_contacts_clock_oblivious (cfg : Config) (n : Nat) :
    ∀ rng c1 c2 : List Nat,
      (generateFallbackContacts cfg n c1 rng).1.map eraseContactId =
        (generateFallbackContacts cfg n c2 rng).1.map eraseContactId ∧
      (generateFallbackContacts cfg n c1 rng).2.2 =
        (generateFallbackContacts cfg n c2 rng).2.2 := by
  induction n with
  | zero => intro rng c1 c2; exact ⟨rfl, rfl⟩
  | succ n ih =>
      intro rng c1 c2
      obtain ⟨hmap, hrng⟩ :=
        mkFallbackContact_clock_oblivious cfg (c1.headD 0) (c2.headD 0) rng
      obtain ⟨ih1, ih2⟩ :=
        ih ((mkFallbackContact cfg (c2.headD 0) rng).2) c1.tail c2.tail
      constructor
      · show eraseContactId (mkFallbackContact cfg (c1.headD 0) rng).1 ::
            ((generateFallbackContacts cfg n c1.tail
              (mkFallbackContact cfg (c1.headD 0) rng).2).1.map eraseContactId) =
          eraseContactId (mkFallbackContact cfg (c2.headD 0) rng).1 ::
            ((generateFallbackContacts cfg n c2.tail
              (mkFallbackContact cfg (c2.headD 0) rng).2).1.map eraseContactId)
        rw [hmap, hrng, ih1]
      · show (generateFallbackContacts cfg n c1.tail
            (mkFallbackContact cfg (c1.headD 0) rng).2).2.2 =
          (generateFallbackContacts cfg n c2.tail
            (mkFallbackContact cfg (c2.headD 0) rng).2).2.2
        rw [hrng, ih2]

/-- C7 counterexample: same pseudo-random stream, different wall-clock
readings — the two fallback-synthesis runs do not produce identical
output (the record ids differ), so a fixed seed alone does not give
run-to-run determinism. -/
theorem fallback_determinism_counterexample :
    (generateFallbackContacts cfgFallback 1 [1000] [7]).1 ≠
      (generateFallbackContacts cfgFallback 1 [2000] [7]).1 := by
  intro h
  have h2 := congrArg idStringsOf h
  exact absurd h2 (by decide)

end PersonaAutoGen
